import Mathlib

/-!
Shallow embedding of `src/flow.py` (Smart-signal traffic simulator).

Numbers are embedded as exact rationals (`ℚ`).  Python division, which
raises `ZeroDivisionError` on a zero divisor, is modelled by `pydiv`
returning `Except Unit ℚ`.  The `try/except ZeroDivisionError` block of
`TrafficSimulation.simulate` is modelled by an explicit `match` on the
`Except` value.  Python `set(...)` membership on the disruption index
collections is modelled by list membership (only membership is ever used).
Bad-scenario reason strings are modelled by the inductive type `Reason`;
the low-flow label carries the exact flow rating (the Python code renders
it with two decimal places for display).
-/

namespace SmartSignal

/-- Python division: `a / b`, raising `ZeroDivisionError` when `b = 0`. -/
def pydiv (a b : ℚ) : Except Unit ℚ :=
  if b = 0 then .error () else .ok (a / b)

/-- Bad-scenario reason labels of `TrafficSimulation.simulate`.
`lowFlow` carries the exact flow rating; the source renders the label as
`Low flow (Rating: {flow_rating:.2f})`. -/
inductive Reason
  | accident
  | emergency
  | zeroSpeed
  | lowFlow (rating : ℚ)
  deriving DecidableEq

/-- `TrafficSimulation.optimize_signals`:
`[max(gt, volume * 2 / 3600 * 60) for gt, volume in zip(green_times, volumes)]`. -/
def optimize_signals (green_times volumes : List ℚ) : List ℚ :=
  (green_times.zip volumes).map (fun p => max p.1 (p.2 * 2 / 3600 * 60))

/-- The body of the `try:` block for one signal in the normal branch of
`TrafficSimulation.simulate` (lines 35-48 of `src/flow.py`): computes
`travel_time = distances[i] / speeds[i]`, compares with the optimized green
time, and either yields the smooth score 10 or the penalty-based score
`max(1, 10 - min(9, excess_time / optimized_green_times[i] * 9))`, recording
a low-flow bad scenario when the rating is below 5.  An `error` value is a
raised `ZeroDivisionError`. -/
def normalBody (d s g : ℚ) : Except Unit (ℚ × Option Reason) :=
  match pydiv d s with
  | .error e => .error e
  | .ok travel_time =>
    if travel_time ≤ g then .ok (10, none)
    else
      match pydiv (travel_time - g) g with
      | .error e => .error e
      | .ok q =>
        let penalty := min 9 (q * 9)
        let flow_rating := max 1 (10 - penalty)
        .ok (flow_rating, if flow_rating < 5 then some (.lowFlow flow_rating) else none)

/-- The flow rating of the penalty branch (lines 43-45 of `src/flow.py`):
`max(1, 10 - min(9, (travel_time - g) / g * 9))`. -/
def flowRating (travel_time g : ℚ) : ℚ :=
  max 1 (10 - min 9 ((travel_time - g) / g * 9))

/-- One iteration of the loop in `TrafficSimulation.simulate` for signal `i`
with per-signal data `d = distances[i]`, `s = speeds[i]`,
`g = optimized_green_times[i]`: the accident branch, then the emergency
branch, then the normal branch whose `ZeroDivisionError` is caught and
converted to a zero score with a `Zero Speed` bad scenario. -/
def signalResult (accidents emergencies : List ℕ) (i : ℕ) (d s g : ℚ) :
    ℚ × Option Reason :=
  if i ∈ accidents then (0, some .accident)
  else if i ∈ emergencies then (5, some .emergency)
  else
    match normalBody d s g with
    | .ok r => r
    | .error _ => (0, some .zeroSpeed)

/-- `TrafficSimulation.simulate`: loops `for i in range(len(distances))`,
appending one flow score per signal and at most one bad scenario per signal,
then computes `rating = np.mean(flow) if flow else 0`.  Returns
`(flow, bad_scenarios, rating)`. -/
def simulate (distances speeds volumes green_times : List ℚ)
    (emergencies accidents : List ℕ) : List ℚ × List (ℕ × Reason) × ℚ :=
  let og := optimize_signals green_times volumes
  let res := (List.range distances.length).map
    (fun i => (i, signalResult accidents emergencies i
      (distances.getD i 0) (speeds.getD i 0) (og.getD i 0)))
  let flow := res.map (fun p => p.2.1)
  let bad_scenarios := res.flatMap (fun p => (p.2.2.map (fun r => (p.1, r))).toList)
  let rating := if flow.isEmpty then 0 else flow.sum / (flow.length : ℚ)
  (flow, bad_scenarios, rating)

/-- `calculate_green_times`: per zipped `(distance, speed, volume)` triple,
a zero green time with a warning when `speed <= 0`, and otherwise
`max(distance / speed, volume * 2 / 3600 * 60)`. -/
def calculate_green_times (distances speeds volumes : List ℚ) : List ℚ :=
  (distances.zip (speeds.zip volumes)).map (fun t =>
    if t.2.1 ≤ 0 then 0 else max (t.1 / t.2.1) (t.2.2 * 2 / 3600 * 60))

/-- Exception-transparent variant of `signalResult`: the per-signal step with
the `try/except ZeroDivisionError` handler, where an uncaught exception would
surface as `error`.  Since the handler catches the zero division, every
branch yields `ok`. -/
def signalResultE (accidents emergencies : List ℕ) (i : ℕ) (d s g : ℚ) :
    Except Unit (ℚ × Option Reason) :=
  if i ∈ accidents then .ok (0, some .accident)
  else if i ∈ emergencies then .ok (5, some .emergency)
  else
    match normalBody d s g with
    | .ok r => .ok r
    | .error _ => .ok (0, some .zeroSpeed)

/-- Exception-transparent loop of `simulate` over a list of signal indices:
any exception escaping a per-signal step aborts the whole run. -/
def simLoopE (accidents emergencies : List ℕ) (ds ss og : List ℚ) :
    List ℕ → Except Unit (List (ℕ × ℚ × Option Reason))
  | [] => .ok []
  | i :: is =>
    match signalResultE accidents emergencies i (ds.getD i 0) (ss.getD i 0) (og.getD i 0) with
    | .error e => .error e
    | .ok r =>
      match simLoopE accidents emergencies ds ss og is with
      | .error e => .error e
      | .ok rest => .ok ((i, r) :: rest)

/-- Exception-transparent `TrafficSimulation.simulate`: `error` means an
exception escaped the simulation run. -/
def simulateE (distances speeds volumes green_times : List ℚ)
    (emergencies accidents : List ℕ) :
    Except Unit (List ℚ × List (ℕ × Reason) × ℚ) :=
  match simLoopE accidents emergencies distances speeds
      (optimize_signals green_times volumes) (List.range distances.length) with
  | .error e => .error e
  | .ok res =>
    let flow := res.map (fun p => p.2.1)
    let bad_scenarios := res.flatMap (fun p => (p.2.2.map (fun r => (p.1, r))).toList)
    let rating := if flow.isEmpty then 0 else flow.sum / (flow.length : ℚ)
    .ok (flow, bad_scenarios, rating)

/-- Exception-transparent loop of `calculate_green_times` over the zipped
triples: the division `distance / speed` is guarded by the `speed <= 0`
check, so it can in fact never raise. -/
def calcGreenLoopE : List (ℚ × ℚ × ℚ) → Except Unit (List ℚ)
  | [] => .ok []
  | t :: rest =>
    if t.2.1 ≤ 0 then
      match calcGreenLoopE rest with
      | .error e => .error e
      | .ok gs => .ok (0 :: gs)
    else
      match pydiv t.1 t.2.1 with
      | .error e => .error e
      | .ok travel_time =>
        match calcGreenLoopE rest with
        | .error e => .error e
        | .ok gs => .ok (max travel_time (t.2.2 * 2 / 3600 * 60) :: gs)

/-- Exception-transparent `calculate_green_times`. -/
def calcGreenE (distances speeds volumes : List ℚ) : Except Unit (List ℚ) :=
  calcGreenLoopE (distances.zip (speeds.zip volumes))

/-! ### Helper lemmas about the per-signal step -/

theorem normalBody_speed_zero (d g : ℚ) : normalBody d 0 g = .error () := by
  simp [normalBody, pydiv]

theorem normalBody_smooth {d s g : ℚ} (hs : s ≠ 0) (h : d / s ≤ g) :
    normalBody d s g = .ok (10, none) := by
  simp [normalBody, pydiv, hs, h]

theorem normalBody_green_zero {d s : ℚ} (hs : s ≠ 0) (h : (0 : ℚ) < d / s) :
    normalBody d s 0 = .error () := by
  simp [normalBody, pydiv, hs, not_le.mpr h]

theorem normalBody_penalty {d s g : ℚ} (hs : s ≠ 0) (h : g < d / s) (hg : g ≠ 0) :
    normalBody d s g =
      .ok (flowRating (d / s) g,
        if flowRating (d / s) g < 5 then some (.lowFlow (flowRating (d / s) g)) else none) := by
  simp [normalBody, pydiv, hs, hg, not_le.mpr h, flowRating]

theorem one_le_flowRating (t g : ℚ) : 1 ≤ flowRating t g :=
  le_max_left _ _

theorem flowRating_le_ten {t g : ℚ} (h : g < t) (hg : 0 < g) : flowRating t g ≤ 10 := by
  have hp : 0 < (t - g) / g * 9 := mul_pos (div_pos (sub_pos.mpr h) hg) (by norm_num)
  have : 0 ≤ min 9 ((t - g) / g * 9) := le_min (by norm_num) hp.le
  exact max_le (by norm_num) (by linarith)

/-- The penalty-branch rating is antitone in the travel time. -/
theorem flowRating_anti {t1 t2 g : ℚ} (hg : 0 < g) (h : t1 ≤ t2) :
    flowRating t2 g ≤ flowRating t1 g := by
  have hp : (t1 - g) / g * 9 ≤ (t2 - g) / g * 9 :=
    mul_le_mul_of_nonneg_right
      ((div_le_div_iff_of_pos_right hg).mpr (sub_le_sub_right h g)) (by norm_num)
  unfold flowRating
  gcongr

theorem signalResult_accident {accidents emergencies : List ℕ} {i : ℕ} (d s g : ℚ)
    (h : i ∈ accidents) :
    signalResult accidents emergencies i d s g = (0, some .accident) := by
  simp [signalResult, h]

theorem signalResult_emergency {accidents emergencies : List ℕ} {i : ℕ} (d s g : ℚ)
    (h : i ∉ accidents) (h2 : i ∈ emergencies) :
    signalResult accidents emergencies i d s g = (5, some .emergency) := by
  simp [signalResult, h, h2]

theorem signalResult_normal {accidents emergencies : List ℕ} {i : ℕ} (d s g : ℚ)
    (h : i ∉ accidents) (h2 : i ∉ emergencies) :
    signalResult accidents emergencies i d s g =
      match normalBody d s g with
      | .ok r => r
      | .error _ => (0, some .zeroSpeed) := by
  simp [signalResult, h, h2]

/-- The flow sequence of `simulate` at index `i < N` is the per-signal result. -/
theorem simulate_flow_getElem {distances speeds volumes green_times : List ℚ}
    {emergencies accidents : List ℕ} {i : ℕ} (h : i < distances.length) :
    (simulate distances speeds volumes green_times emergencies accidents).1[i]? =
      some (signalResult accidents emergencies i (distances.getD i 0) (speeds.getD i 0)
        ((optimize_signals green_times volumes).getD i 0)).1 := by
  simp [simulate, List.getElem?_map, List.getElem?_range, h]

/-- Bad-scenario membership in `simulate`: `(j, r)` is recorded iff `j` is a
valid signal index whose per-signal step yields reason `r`. -/
theorem simulate_mem_bad {distances speeds volumes green_times : List ℚ}
    {emergencies accidents : List ℕ} {j : ℕ} {r : Reason} :
    (j, r) ∈ (simulate distances speeds volumes green_times emergencies accidents).2.1 ↔
      j < distances.length ∧
      (signalResult accidents emergencies j (distances.getD j 0) (speeds.getD j 0)
        ((optimize_signals green_times volumes).getD j 0)).2 = some r := by
  simp only [simulate, List.mem_flatMap, List.mem_map, List.mem_range]
  constructor
  · rintro ⟨p, ⟨i, hi, rfl⟩, hmem⟩
    rcases Option.mem_toList.mp hmem with hmem'
    rcases Option.map_eq_some'.mp hmem' with ⟨r', hr', heq⟩
    obtain ⟨rfl, rfl⟩ : i = j ∧ r' = r := by
      constructor <;> [exact (Prod.mk.injEq ..).mp heq |>.1.symm ▸ rfl;
        exact (Prod.mk.injEq ..).mp heq |>.2]
    exact ⟨hi, hr'⟩
  · rintro ⟨hj, hr⟩
    refine ⟨_, ⟨j, hj, rfl⟩, Option.mem_toList.mpr ?_⟩
    simp only [Option.mem_def, Option.map_eq_some']
    exact ⟨r, hr, rfl⟩

/-- `optimize_signals` at a valid index. -/
theorem optimize_signals_getD {green_times volumes : List ℚ} {i : ℕ}
    (hg : i < green_times.length) (hv : i < volumes.length) :
    (optimize_signals green_times volumes).getD i 0 =
      max (green_times.getD i 0) (volumes.getD i 0 * 2 / 3600 * 60) := by
  have hz : i < (green_times.zip volumes).length := by
    simp [List.length_zip]; omega
  rw [optimize_signals, List.getD_eq_getElem _ _ (by simpa using hz),
    List.getD_eq_getElem _ _ hg, List.getD_eq_getElem _ _ hv]
  simp [List.getElem_zip]

theorem signalResult_zero_speed {accidents emergencies : List ℕ} {i : ℕ} {d s g : ℚ}
    (hac : i ∉ accidents) (hem : i ∉ emergencies) (herr : normalBody d s g = .error ()) :
    signalResult accidents emergencies i d s g = (0, some .zeroSpeed) := by
  simp [signalResult, hac, hem, herr]

theorem signalResult_ok {accidents emergencies : List ℕ} {i : ℕ} {d s g : ℚ}
    {r : ℚ × Option Reason}
    (hac : i ∉ accidents) (hem : i ∉ emergencies) (hok : normalBody d s g = .ok r) :
    signalResult accidents emergencies i d s g = r := by
  simp [signalResult, hac, hem, hok]

/-- Every per-signal flow score lies in `[0, 10]` once the optimized green
time is non-negative. -/
theorem signalResult_bounds (accidents emergencies : List ℕ) (i : ℕ) (d s g : ℚ)
    (hg : 0 ≤ g) :
    0 ≤ (signalResult accidents emergencies i d s g).1 ∧
    (signalResult accidents emergencies i d s g).1 ≤ 10 := by
  by_cases hac : i ∈ accidents
  · rw [signalResult_accident _ _ _ hac]; norm_num
  by_cases hem : i ∈ emergencies
  · rw [signalResult_emergency _ _ _ hac hem]; norm_num
  by_cases hs : s = 0
  · rw [signalResult_zero_speed hac hem (by rw [hs]; exact normalBody_speed_zero d g)]
    norm_num
  by_cases htt : d / s ≤ g
  · rw [signalResult_ok hac hem (normalBody_smooth hs htt)]; norm_num
  push_neg at htt
  by_cases hgz : g = 0
  · subst hgz
    rw [signalResult_zero_speed hac hem (normalBody_green_zero hs htt)]; norm_num
  · rw [signalResult_ok hac hem (normalBody_penalty hs htt hgz)]
    have hg' : 0 < g := lt_of_le_of_ne hg (Ne.symm hgz)
    exact ⟨le_trans zero_le_one (one_le_flowRating _ _), flowRating_le_ten htt hg'⟩

/-- `calculate_green_times` at a valid index. -/
theorem calculate_green_times_getElem {distances speeds volumes : List ℚ} {i : ℕ}
    (h1 : i < distances.length) (h2 : i < speeds.length) (h3 : i < volumes.length) :
    (calculate_green_times distances speeds volumes)[i]? =
      some (if speeds.getD i 0 ≤ 0 then 0
        else max (distances.getD i 0 / speeds.getD i 0)
          (volumes.getD i 0 * 2 / 3600 * 60)) := by
  have hz : i < (distances.zip (speeds.zip volumes)).length := by
    simp [List.length_zip]; omega
  rw [calculate_green_times, List.getElem?_map, List.getElem?_eq_getElem hz]
  simp only [Option.map_some']
  rw [List.getElem_zip, List.getElem_zip]
  rw [List.getD_eq_getElem _ _ h1, List.getD_eq_getElem _ _ h2, List.getD_eq_getElem _ _ h3]

/-- The guarded green-time loop never lets an exception escape: it returns
exactly the mapped green times. -/
theorem calcGreenLoopE_ok : ∀ l : List (ℚ × ℚ × ℚ),
    calcGreenLoopE l = .ok (l.map (fun t =>
      if t.2.1 ≤ 0 then 0 else max (t.1 / t.2.1) (t.2.2 * 2 / 3600 * 60)))
  | [] => rfl
  | t :: rest => by
    by_cases hs : t.2.1 ≤ 0
    · simp [calcGreenLoopE, hs, calcGreenLoopE_ok rest]
    · have hne : t.2.1 ≠ 0 := fun h => hs (le_of_eq h)
      simp [calcGreenLoopE, hs, pydiv, hne, calcGreenLoopE_ok rest]

/-- The `try/except` handler catches the only possible exception of a
per-signal step, so the exception-transparent step always succeeds. -/
theorem signalResultE_ok (accidents emergencies : List ℕ) (i : ℕ) (d s g : ℚ) :
    signalResultE accidents emergencies i d s g =
      .ok (signalResult accidents emergencies i d s g) := by
  by_cases hac : i ∈ accidents
  · simp [signalResultE, signalResult, hac]
  by_cases hem : i ∈ emergencies
  · simp [signalResultE, signalResult, hac, hem]
  cases hnb : normalBody d s g with
  | ok r => simp [signalResultE, signalResult, hac, hem, hnb]
  | error e => simp [signalResultE, signalResult, hac, hem, hnb]

/-- The simulation loop never lets an exception escape. -/
theorem simLoopE_ok (accidents emergencies : List ℕ) (ds ss og : List ℚ) :
    ∀ l : List ℕ, simLoopE accidents emergencies ds ss og l =
      .ok (l.map (fun i => (i, signalResult accidents emergencies i
        (ds.getD i 0) (ss.getD i 0) (og.getD i 0))))
  | [] => rfl
  | i :: is => by
    rw [simLoopE, signalResultE_ok, simLoopE_ok accidents emergencies ds ss og is]
    simp

theorem getD_zero_nonneg {l : List ℚ} (h : ∀ x ∈ l, 0 ≤ x) (i : ℕ) :
    0 ≤ l.getD i 0 := by
  by_cases hi : i < l.length
  · rw [List.getD_eq_getElem _ _ hi]; exact h _ (l.getElem_mem hi)
  · rw [List.getD_eq_default _ _ (by omega)]

theorem optimize_signals_nonneg {green_times volumes : List ℚ}
    (hg : ∀ x ∈ green_times, 0 ≤ x) (_hv : ∀ x ∈ volumes, 0 ≤ x) :
    ∀ x ∈ optimize_signals green_times volumes, 0 ≤ x := by
  intro x hx
  rcases List.mem_map.mp hx with ⟨p, hp, rfl⟩
  rcases List.of_mem_zip hp with ⟨h1, h2⟩
  have := hg _ h1
  exact le_max_of_le_left this

/-! ### Claim theorems -/

/-- Claim C1, counterexample: the claim asserts that a negative speed
(`speeds[i] <= 0`) also yields a zero flow score and a `Zero Speed` bad
scenario, but with `distances = [1]`, `speeds = [-1]`, `volumes = [0]`,
`green_times = [0]` and no disruptions, signal 0 has speed `-1 ≤ 0` yet
gets flow score 10 and no bad scenario: the travel time `-1` is negative,
so it passes the smooth-flow comparison and no division by zero occurs. -/
theorem C1_counterexample :
    (0 : ℕ) ∉ ([] : List ℕ) ∧
    ([(-1 : ℚ)].getD 0 0 ≤ 0) ∧
    (simulate [1] [-1] [0] [0] [] []).1[0]? = some 10 ∧
    (simulate [1] [-1] [0] [0] [] []).2.1 = [] := by
  refine ⟨by decide, by norm_num, ?_, ?_⟩ <;>
    norm_num [simulate, signalResult, normalBody, pydiv, optimize_signals, List.range_succ]

/-- Claim C1 (amended: `speeds[i] = 0`, not `speeds[i] ≤ 0`): for every
signal index `i` not in accidents and not in emergencies with
`speeds[i] = 0`, `simulate` assigns `flow[i] = 0` and records the bad
scenario `(i, Zero Speed)`, continuing execution. -/
theorem C1_zero_speed {distances speeds volumes green_times : List ℚ}
    {emergencies accidents : List ℕ} {i : ℕ}
    (hi : i < distances.length) (_h2 : i < speeds.length)
    (hac : i ∉ accidents) (hem : i ∉ emergencies)
    (hs : speeds.getD i 0 = 0) :
    (simulate distances speeds volumes green_times emergencies accidents).1[i]? = some 0 ∧
    (i, Reason.zeroSpeed) ∈
      (simulate distances speeds volumes green_times emergencies accidents).2.1 := by
  have herr : normalBody (distances.getD i 0) (speeds.getD i 0)
      ((optimize_signals green_times volumes).getD i 0) = .error () := by
    rw [hs]; exact normalBody_speed_zero ..
  have hres := signalResult_zero_speed hac hem herr
  exact ⟨by rw [simulate_flow_getElem hi, hres],
    simulate_mem_bad.mpr ⟨hi, by rw [hres]⟩⟩

/-- Witness for C1: signal 0 with speed 0 gets flow 0 and a `Zero Speed`
bad scenario. -/
theorem C1_witness :
    (simulate [5] [0] [7] [3] [] []).1[0]? = some 0 ∧
    (0, Reason.zeroSpeed) ∈ (simulate [5] [0] [7] [3] [] []).2.1 :=
  C1_zero_speed (by decide) (by decide) (by decide) (by decide) (by decide)

/-- Claim C2: for every signal index in both the accidents and the
emergencies set, `simulate` assigns a zero flow score and records the bad
scenario with label `Accident`, not `Emergency`: the accident branch takes
precedence. -/
theorem C2_accident_precedence {distances speeds volumes green_times : List ℚ}
    {emergencies accidents : List ℕ} {i : ℕ}
    (hi : i < distances.length) (hac : i ∈ accidents) (_hem : i ∈ emergencies) :
    (simulate distances speeds volumes green_times emergencies accidents).1[i]? = some 0 ∧
    (i, Reason.accident) ∈
      (simulate distances speeds volumes green_times emergencies accidents).2.1 ∧
    (i, Reason.emergency) ∉
      (simulate distances speeds volumes green_times emergencies accidents).2.1 := by
  refine ⟨?_, ?_, ?_⟩
  · rw [simulate_flow_getElem hi, signalResult_accident _ _ _ hac]
  · exact simulate_mem_bad.mpr ⟨hi, by rw [signalResult_accident _ _ _ hac]⟩
  · intro hmem
    rcases simulate_mem_bad.mp hmem with ⟨-, h⟩
    rw [signalResult_accident _ _ _ hac] at h
    exact Reason.noConfusion (Option.some.inj h)

/-- Witness for C2: signal 0 in both disruption sets scores 0 with an
`Accident` label and no `Emergency` label. -/
theorem C2_witness :
    (simulate [1] [1] [0] [0] [0] [0]).1[0]? = some 0 ∧
    (0, Reason.accident) ∈ (simulate [1] [1] [0] [0] [0] [0]).2.1 ∧
    (0, Reason.emergency) ∉ (simulate [1] [1] [0] [0] [0] [0]).2.1 :=
  C2_accident_precedence (by decide) (by decide) (by decide)

/-- Claim C8: on all-empty input, `simulate` yields an empty flow sequence,
an empty bad-scenario list, and aggregate rating exactly 0. -/
theorem C8_empty_input : simulate [] [] [] [] [] [] = ([], [], 0) := rfl

/-- Claim C9: `simulate` is deterministic — identical inputs yield identical
flow sequences, bad-scenario lists (including order), and ratings. -/
theorem C9_deterministic (ds1 ds2 ss1 ss2 vs1 vs2 gs1 gs2 : List ℚ)
    (em1 em2 ac1 ac2 : List ℕ)
    (hd : ds1 = ds2) (hs : ss1 = ss2) (hv : vs1 = vs2) (hg : gs1 = gs2)
    (he : em1 = em2) (ha : ac1 = ac2) :
    simulate ds1 ss1 vs1 gs1 em1 ac1 = simulate ds2 ss2 vs2 gs2 em2 ac2 := by
  subst hd hs hv hg he ha; rfl

/-- Witness for C9 at a concrete input. -/
theorem C9_witness :
    simulate [100] [10] [30] [10] [0] [1] = simulate [100] [10] [30] [10] [0] [1] :=
  C9_deterministic [100] [100] [10] [10] [30] [30] [10] [10] [0] [0] [1] [1]
    rfl rfl rfl rfl rfl rfl

/-- Claim C10 (implicit): for a signal in the normal branch with nonzero
speed, strictly positive travel time, and optimized green time
`max(green_times[i], volumes[i]/30)` equal to 0, the penalty division by the
zero green time is caught by the same `ZeroDivisionError` handler, so
`simulate` assigns `flow[i] = 0` and records `(i, Zero Speed)` even though
the speed is nonzero. -/
theorem C10_zero_green {distances speeds volumes green_times : List ℚ}
    {emergencies accidents : List ℕ} {i : ℕ}
    (hi : i < distances.length) (_h2 : i < speeds.length)
    (h3 : i < green_times.length) (h4 : i < volumes.length)
    (hac : i ∉ accidents) (hem : i ∉ emergencies)
    (hs : speeds.getD i 0 ≠ 0)
    (htt : 0 < distances.getD i 0 / speeds.getD i 0)
    (hg : max (green_times.getD i 0) (volumes.getD i 0 / 30) = 0) :
    (simulate distances speeds volumes green_times emergencies accidents).1[i]? = some 0 ∧
    (i, Reason.zeroSpeed) ∈
      (simulate distances speeds volumes green_times emergencies accidents).2.1 := by
  have hog : (optimize_signals green_times volumes).getD i 0 = 0 := by
    rw [optimize_signals_getD h3 h4,
      show volumes.getD i 0 * 2 / 3600 * 60 = volumes.getD i 0 / 30 from by ring]
    exact hg
  have herr : normalBody (distances.getD i 0) (speeds.getD i 0)
      ((optimize_signals green_times volumes).getD i 0) = .error () := by
    rw [hog]; exact normalBody_green_zero hs htt
  have hres := signalResult_zero_speed hac hem herr
  exact ⟨by rw [simulate_flow_getElem hi, hres],
    simulate_mem_bad.mpr ⟨hi, by rw [hres]⟩⟩

/-- Witness for C10: speed 1 (nonzero), distance 1, green time and volume 0:
flow 0 with a `Zero Speed` bad scenario. -/
theorem C10_witness :
    (simulate [1] [1] [0] [0] [] []).1[0]? = some 0 ∧
    (0, Reason.zeroSpeed) ∈ (simulate [1] [1] [0] [0] [] []).2.1 :=
  C10_zero_green (by decide) (by decide) (by decide) (by decide) (by decide)
    (by decide) (by decide) (by norm_num) (by norm_num)

/-- Claim C3: with non-negative green times and volumes, every flow score
produced by `simulate` lies in `[0, 10]`. -/
theorem C3_score_bounds {distances speeds volumes green_times : List ℚ}
    {emergencies accidents : List ℕ}
    (hg : ∀ x ∈ green_times, 0 ≤ x) (hv : ∀ x ∈ volumes, 0 ≤ x) :
    ∀ q ∈ (simulate distances speeds volumes green_times emergencies accidents).1,
      0 ≤ q ∧ q ≤ 10 := by
  intro q hq
  simp only [simulate, List.mem_map, List.mem_range] at hq
  rcases hq with ⟨p, ⟨j, hj, rfl⟩, rfl⟩
  exact signalResult_bounds accidents emergencies j _ _ _
    (getD_zero_nonneg (optimize_signals_nonneg hg hv) j)

/-- Witness for C3 at a concrete input: the score 10 of the only signal of a
concrete run lies within the bounds. -/
theorem C3_witness : (0 : ℚ) ≤ 10 ∧ (10 : ℚ) ≤ 10 :=
  C3_score_bounds
    (show ∀ x ∈ [(10 : ℚ)], 0 ≤ x by intro x hx; simp at hx; subst hx; norm_num)
    (show ∀ x ∈ [(30 : ℚ)], 0 ≤ x by intro x hx; simp at hx; subst hx; norm_num)
    10
    (show (10 : ℚ) ∈ (simulate [100] [10] [30] [10] [] []).1 by
      norm_num [simulate, signalResult, normalBody, pydiv, optimize_signals, List.range_succ])

/-- Claim C4: in the normal branch with nonzero speed, travel time strictly
above the nonzero optimized green time `g`, the flow score is
`max(1, 10 - min(9, (travel_time - g) / g * 9))` and a low-flow bad scenario
carrying that score (rendered with two decimals in the source) is recorded
exactly when the score is below 5. -/
theorem C4_low_flow {distances speeds volumes green_times : List ℚ}
    {emergencies accidents : List ℕ} {i : ℕ}
    (hi : i < distances.length) (hac : i ∉ accidents) (hem : i ∉ emergencies)
    (hs : speeds.getD i 0 ≠ 0)
    (hg : (optimize_signals green_times volumes).getD i 0 ≠ 0)
    (htt : (optimize_signals green_times volumes).getD i 0 <
      distances.getD i 0 / speeds.getD i 0) :
    (simulate distances speeds volumes green_times emergencies accidents).1[i]? =
      some (flowRating (distances.getD i 0 / speeds.getD i 0)
        ((optimize_signals green_times volumes).getD i 0)) ∧
    ((i, Reason.lowFlow (flowRating (distances.getD i 0 / speeds.getD i 0)
        ((optimize_signals green_times volumes).getD i 0))) ∈
      (simulate distances speeds volumes green_times emergencies accidents).2.1 ↔
      flowRating (distances.getD i 0 / speeds.getD i 0)
        ((optimize_signals green_times volumes).getD i 0) < 5) := by
  have hres := signalResult_ok hac hem (normalBody_penalty hs htt hg)
  refine ⟨by rw [simulate_flow_getElem hi, hres], ?_, ?_⟩
  · intro hmem
    rcases simulate_mem_bad.mp hmem with ⟨-, hsnd⟩
    rw [hres] at hsnd
    by_cases h5 : flowRating (distances.getD i 0 / speeds.getD i 0)
        ((optimize_signals green_times volumes).getD i 0) < 5
    · exact h5
    · rw [show ((flowRating (distances.getD i 0 / speeds.getD i 0)
          ((optimize_signals green_times volumes).getD i 0),
          if flowRating (distances.getD i 0 / speeds.getD i 0)
            ((optimize_signals green_times volumes).getD i 0) < 5
          then some (Reason.lowFlow (flowRating (distances.getD i 0 / speeds.getD i 0)
            ((optimize_signals green_times volumes).getD i 0))) else none) :
          ℚ × Option Reason).2 = none from by rw [if_neg h5]] at hsnd
      exact Option.noConfusion hsnd
  · intro h5
    refine simulate_mem_bad.mpr ⟨hi, ?_⟩
    rw [hres]
    exact congrArg some (congrArg Reason.lowFlow rfl) |>.symm ▸ (by rw [if_pos h5])

/-- Witness for C4: distance 2000, speed 10, green time 100: travel time 200,
penalty 9, rating 1, low-flow scenario recorded. -/
theorem C4_witness :
    (simulate [2000] [10] [0] [100] [] []).1[0]? =
      some (flowRating ([(2000 : ℚ)].getD 0 0 / [(10 : ℚ)].getD 0 0)
        ((optimize_signals [100] [0]).getD 0 0)) ∧
    ((0, Reason.lowFlow (flowRating ([(2000 : ℚ)].getD 0 0 / [(10 : ℚ)].getD 0 0)
        ((optimize_signals [100] [0]).getD 0 0))) ∈
      (simulate [2000] [10] [0] [100] [] []).2.1 ↔
      flowRating ([(2000 : ℚ)].getD 0 0 / [(10 : ℚ)].getD 0 0)
        ((optimize_signals [100] [0]).getD 0 0) < 5) :=
  C4_low_flow (by decide) (by decide) (by decide)
    (by norm_num)
    (by norm_num [optimize_signals])
    (by norm_num [optimize_signals])

/-- Claim C5: `calculate_green_times` yields 0 when the speed is
non-positive, and otherwise `max(distance/speed, volume * 2 / 3600 * 60)`,
which is never below `volume / 30`. -/
theorem C5_green_times {distances speeds volumes : List ℚ} {i : ℕ}
    (h1 : i < distances.length) (h2 : i < speeds.length) (h3 : i < volumes.length) :
    (speeds.getD i 0 ≤ 0 →
      (calculate_green_times distances speeds volumes)[i]? = some 0) ∧
    (0 < speeds.getD i 0 →
      (calculate_green_times distances speeds volumes)[i]? =
        some (max (distances.getD i 0 / speeds.getD i 0)
          (volumes.getD i 0 * 2 / 3600 * 60)) ∧
      volumes.getD i 0 / 30 ≤
        max (distances.getD i 0 / speeds.getD i 0)
          (volumes.getD i 0 * 2 / 3600 * 60)) := by
  constructor
  · intro hs
    rw [calculate_green_times_getElem h1 h2 h3, if_pos hs]
  · intro hs
    have hns : ¬ speeds.getD i 0 ≤ 0 := not_le.mpr hs
    refine ⟨by rw [calculate_green_times_getElem h1 h2 h3, if_neg hns], ?_⟩
    rw [show volumes.getD i 0 / 30 = volumes.getD i 0 * 2 / 3600 * 60 from by ring]
    exact le_max_right _ _

/-- Witness for C5 at a concrete input. -/
theorem C5_witness :
    (([(10 : ℚ)].getD 0 0 ≤ 0 →
      (calculate_green_times [100] [10] [30])[0]? = some 0) ∧
    (0 < [(10 : ℚ)].getD 0 0 →
      (calculate_green_times [100] [10] [30])[0]? =
        some (max ([(100 : ℚ)].getD 0 0 / [(10 : ℚ)].getD 0 0)
          ([(30 : ℚ)].getD 0 0 * 2 / 3600 * 60)) ∧
      [(30 : ℚ)].getD 0 0 / 30 ≤
        max ([(100 : ℚ)].getD 0 0 / [(10 : ℚ)].getD 0 0)
          ([(30 : ℚ)].getD 0 0 * 2 / 3600 * 60))) :=
  C5_green_times (by decide) (by decide) (by decide)

/-- Claim C6: within the documented contract (equal-length numeric sequences
and in-range index sets), neither `calculate_green_times` nor `simulate`
lets an exception escape: the exception-transparent variants return `ok`
with exactly the total functions' outputs. -/
theorem C6_no_exception {distances speeds volumes green_times : List ℚ}
    {emergencies accidents : List ℕ}
    (_h1 : speeds.length = distances.length)
    (_h2 : volumes.length = distances.length)
    (_h3 : green_times.length = distances.length)
    (_h4 : ∀ j ∈ accidents, j < distances.length)
    (_h5 : ∀ j ∈ emergencies, j < distances.length) :
    calcGreenE distances speeds volumes =
      .ok (calculate_green_times distances speeds volumes) ∧
    simulateE distances speeds volumes green_times emergencies accidents =
      .ok (simulate distances speeds volumes green_times emergencies accidents) := by
  refine ⟨?_, ?_⟩
  · rw [calcGreenE, calcGreenLoopE_ok, calculate_green_times]
  · rw [simulateE, simLoopE_ok]; rfl

/-- Witness for C6 at a concrete input containing a zero speed and a zero
green time (both degenerate division cases). -/
theorem C6_witness :
    (calcGreenE [100, 1] [0, 1] [30, 0] =
      .ok (calculate_green_times [100, 1] [0, 1] [30, 0]) ∧
    simulateE [100, 1] [0, 1] [30, 0] [10, 0] [0] [1] =
      .ok (simulate [100, 1] [0, 1] [30, 0] [10, 0] [0] [1])) :=
  C6_no_exception (by decide) (by decide) (by decide) (by decide) (by decide)

/-- Claim C7, counterexample: the claim quantifies over any fixed speed, but
with speed `-1`, green times `[0]`, volumes `[0]` and no disruptions,
increasing the distance from `-1` to `0` increases the flow score from 0 to
10 (travel time `1` exceeds the zero green time and is caught as
`Zero Speed`, while travel time `0` passes the smooth-flow comparison), so
the score is not non-strictly decreasing in the distance. -/
theorem C7_counterexample :
    ((-1 : ℚ) ≤ 0) ∧
    (simulate [-1] [-1] [0] [0] [] []).1[0]? = some 0 ∧
    (simulate [0] [-1] [0] [0] [] []).1[0]? = some 10 ∧
    ¬ ((10 : ℚ) ≤ 0) := by
  refine ⟨by norm_num, ?_, ?_, by norm_num⟩ <;>
    norm_num [simulate, signalResult, normalBody, pydiv, optimize_signals, List.range_succ]

/-- Claim C7 (amended: positive speed and non-negative optimized green time,
as guaranteed by the data model's non-negative inputs): in the normal branch
with fixed speed `s > 0` and fixed optimized green time `g ≥ 0`, the
per-signal flow score of `simulate` is non-strictly decreasing in the
distance. -/
theorem C7_monotone {accidents emergencies : List ℕ} {i : ℕ} {d1 d2 s g : ℚ}
    (hac : i ∉ accidents) (hem : i ∉ emergencies)
    (hs : 0 < s) (hg : 0 ≤ g) (hd : d1 ≤ d2) :
    (signalResult accidents emergencies i d2 s g).1 ≤
      (signalResult accidents emergencies i d1 s g).1 := by
  have hsne : s ≠ 0 := ne_of_gt hs
  have ht : d1 / s ≤ d2 / s := (div_le_div_iff_of_pos_right hs).mpr hd
  by_cases h2 : d2 / s ≤ g
  · rw [signalResult_ok hac hem (normalBody_smooth hsne (le_trans ht h2)),
      signalResult_ok hac hem (normalBody_smooth hsne h2)]
  push_neg at h2
  by_cases hgz : g = 0
  · subst hgz
    rw [signalResult_zero_speed hac hem (normalBody_green_zero hsne h2)]
    exact (signalResult_bounds accidents emergencies i d1 s 0 le_rfl).1
  · have hg' : 0 < g := lt_of_le_of_ne hg (Ne.symm hgz)
    rw [signalResult_ok hac hem (normalBody_penalty hsne h2 hgz)]
    by_cases h1 : d1 / s ≤ g
    · rw [signalResult_ok hac hem (normalBody_smooth hsne h1)]
      exact flowRating_le_ten h2 hg'
    · push_neg at h1
      rw [signalResult_ok hac hem (normalBody_penalty hsne h1 hgz)]
      exact flowRating_anti hg' ht

/-- Witness for C7: with speed 1 and green time 50, distance 200 scores no
higher than distance 100. -/
theorem C7_witness :
    (signalResult [] [] 0 200 1 50).1 ≤ (signalResult [] [] 0 100 1 50).1 :=
  C7_monotone (by decide) (by decide) (by norm_num) (by norm_num) (by norm_num)

end SmartSignal
